import Mathlib

/-!
# Verification of the dinory-ai story/memory services

Shallow embedding of the core logic of the `dinory-ai` repository:

* `src/app/api/endpoints/story_generation.py` — the branching-story
  endpoints (`generate-next-scene`, `analyze-custom-choice`,
  `create-image-prompt`) with the in-memory `CHARACTER_DESCRIPTIONS` store
  and the deterministic fallback scene;
* `src/app/services/chat/memory_service.py` — the hybrid memory retriever
  (`get_relevant_context`, `_create_context_summary`);
* `src/app/services/story/story_generator.py` — the recommendation search
  with its id/title deduplication loop.

External collaborators (the OpenAI client, the Pinecone index, the Spring
structured store) are modelled by explicit outcome parameters: an outcome
value per call says whether the collaborator was unavailable, failed
(raised / timed out / returned something the caller's `except` absorbed),
or succeeded with a parsed payload.  Python strings are `String`, Python
ints are `Int`, `dict.get` defaults are `Option.getD`, Python truthiness
of an optional string is `optTruthy`, and the substring operator `in` is
`pyContains`.
-/

/-! ## Python string primitives -/

/-- Substring test on character lists: `needle` occurs contiguously in the
list.  `listContainsSub n h` mirrors Python's `n in h` after both are viewed
as character sequences. -/
def listContainsSub (needle : List Char) : List Char → Bool
  | [] => needle.isEmpty
  | c :: rest => needle.isPrefixOf (c :: rest) || listContainsSub needle rest

/-- Python's `needle in hay` for strings. -/
def pyContains (hay needle : String) : Bool :=
  listContainsSub needle.data hay.data

/-- Python's `hay.startswith(pre)`. -/
def pyStartsWith (hay pre : String) : Bool :=
  pre.data.isPrefixOf hay.data

/-- Python's `str.lower()`, restricted to the ASCII case mapping that every
keyword below needs (Korean text is untouched by either function). -/
def pyLower (s : String) : String :=
  ⟨s.data.map Char.toLower⟩

/-- Python truthiness of an optional string: `None` and `""` are falsy. -/
def optTruthy : Option String → Bool
  | none => false
  | some s => !s.data.isEmpty

/-- Python's `"\n".join(parts)`. -/
def joinParts : List String → String
  | [] => ""
  | [x] => x
  | x :: y :: xs => x ++ "\n" ++ joinParts (y :: xs)

/-! ## Choice classifier (`analyze_custom_choice`,
`src/app/api/endpoints/story_generation.py` lines 499-684)

The endpoint lowercases the request text, tries the OpenAI collaborator
first, and runs a deterministic keyword fallback when the collaborator is
unavailable (no client) or its call fails (API error, timeout, malformed
JSON, a non-integer point value).  The keyword tables below are copied
from the source verbatim, in Python dict insertion order. -/

/-- NEGATIVE_KEYWORDS from the source: (severity level, keywords), in dict
insertion order. -/
def NEGATIVE_KEYWORDS : List (String × List String) :=
  [("strong", ["죽이", "죽여", "패버", "패주", "패죽", "찌르", "폭행", "부숴",
               "욕해", "욕함", "ㅅㅂ", "ㅈㄹ", "개새", "sex", "죽어"]),
   ("medium", ["때리", "패", "싸우", "밀치", "주먹", "혼내", "놀림", "따돌",
               "비웃", "변태", "쓰레기", "혐오", "증오", "미워"]),
   ("weak",   ["바보", "멍청", "못생", "뚱뚱", "이상해", "무식", "재수없",
               "싫어", "싫다", "미워하", "하찮", "저질", "므흣"])]

/-- One ability's keyword tiers of POSITIVE_KEYWORDS. -/
structure AbilityKeywords where
  ability : String
  strong : List String
  medium : List String
  weak : List String
deriving DecidableEq

def courageKeywords : AbilityKeywords :=
  ⟨"용기", ["도전", "용감", "두렵지만", "첫걸음", "해볼게", "포기하지"],
   ["용기", "brave", "혼자서", "앞으로 나아"],
   ["시도", "가볼게", "해볼까", "무서워도"]⟩

def empathyKeywords : AbilityKeywords :=
  ⟨"공감", ["위로해", "마음 알아", "힘들었겠다", "슬펐겠다", "배려해"],
   ["공감", "이해해", "empathy", "도와줄게"],
   ["괜찮아", "힘내", "도와"]⟩

def creativityKeywords : AbilityKeywords :=
  ⟨"창의성", ["새로운 아이디어", "발명", "창조해", "기발한"],
   ["아이디어", "창의", "독창", "상상"],
   ["생각해냈", "만들어"]⟩

def responsibilityKeywords : AbilityKeywords :=
  ⟨"책임감", ["약속 지킬게", "맡은 일", "스스로 해결"],
   ["정리했", "정리할게", "책임감", "챙겨"],
   ["스스로", "도와줄게"]⟩

def friendshipKeywords : AbilityKeywords :=
  ⟨"우정", ["같이 도와", "함께 해결", "친구 지켜", "협력했어"],
   ["친구", "friend", "우정", "함께", "같이"],
   ["같아", "둘이서"]⟩

/-- POSITIVE_KEYWORDS from the source, in dict insertion order. -/
def POSITIVE_KEYWORDS : List AbilityKeywords :=
  [courageKeywords, empathyKeywords, creativityKeywords,
   responsibilityKeywords, friendshipKeywords]

/-- `check_negative(text)`: the first severity level with a matching keyword,
iterating NEGATIVE_KEYWORDS.items() in insertion order. -/
def check_negative_go : List (String × List String) → String → Bool × Option String
  | [], _ => (false, none)
  | (level, keywords) :: rest, text =>
      if keywords.any (fun k => pyContains text k) then (true, some level)
      else check_negative_go rest text

def check_negative (text : String) : Bool × Option String :=
  check_negative_go NEGATIVE_KEYWORDS text

/-- `match_positive(text)`: first ability (in POSITIVE_KEYWORDS order) with a
matching keyword, strong tier checked before medium before weak; no match
defaults to 책임감 with 10 points. -/
def match_positive_go (text : String) : List AbilityKeywords → String × Int × String
  | [] => ("책임감", 10, "fallback")
  | a :: rest =>
      if a.strong.any (fun k => pyContains text k) then (a.ability, 12, "strong")
      else if a.medium.any (fun k => pyContains text k) then (a.ability, 10, "medium")
      else if a.weak.any (fun k => pyContains text k) then (a.ability, 8, "weak")
      else match_positive_go text rest

def match_positive (text : String) : String × Int × String :=
  match_positive_go text POSITIVE_KEYWORDS

/-- The parsed JSON object a successful collaborator call yields.  A field
is `none` when the key is absent, so `dict.get` defaults apply; a payload
whose point value is not an integer makes the `+ 2` raise and is modelled
as the failure outcome instead. -/
structure LlmChoiceResult where
  isNegative : Bool := false
  negativeReason : Option String := none
  feedback : Option String := none
  abilityType : Option String := none
  abilityPoints : Option Int := none
deriving DecidableEq

/-- Outcome of the collaborator for one `analyze-custom-choice` request:
`unavailable` = `llm.client` is `None` (no API key); `failure` = the call
raised or returned malformed JSON (absorbed by the inner `except`);
`success r` = the call returned and parsed to `r`. -/
inductive LlmOutcome where
  | unavailable
  | failure
  | success (r : LlmChoiceResult)
deriving DecidableEq

/-- Response payload of `analyze-custom-choice`. -/
structure ChoiceAnalysis where
  isNegative : Bool
  abilityType : Option String
  abilityPoints : Int
  feedback : String
  negativeReason : Option String := none
deriving DecidableEq

/-- The collaborator-free branch at the bottom of `analyze_custom_choice`:
keyword negative screen, then keyword ability match with the +2 custom
bonus capped at 17. -/
def analyze_fallback (txt : String) : ChoiceAnalysis :=
  match check_negative txt with
  | (true, level) =>
      { isNegative := true, abilityType := none, abilityPoints := 0,
        negativeReason := some ((level.getD "") ++ " 수준의 부정적 표현 포함"),
        feedback := "친구를 존중하고 배려하는 선택을 해보면 좋겠어요!" }
  | (false, _) =>
      let m := match_positive txt
      let pts := min (m.2.1 + 2) 17
      { isNegative := false, abilityType := some m.1, abilityPoints := pts,
        feedback := "멋진 선택이에요! " ++ m.1 ++ " 능력이 자랐어요 (+" ++
          toString pts ++ "점)" }

/-- `analyze_custom_choice(req)` as a function of the request text and the
collaborator outcome.  On success the endpoint trusts the collaborator's
verdict (the keyword tables are not consulted); only on unavailability or
failure does it run `analyze_fallback` on the lowercased text. -/
def analyze_custom_choice (text : String) (llm : LlmOutcome) : ChoiceAnalysis :=
  let txt := pyLower text
  match llm with
  | .success r =>
      if r.isNegative then
        { isNegative := true, abilityType := none, abilityPoints := 0,
          negativeReason := some (r.negativeReason.getD ""),
          feedback := r.feedback.getD "부정적인 표현이 있어요!" }
      else
        let abilityType := r.abilityType.getD "책임감"
        let pts := min (r.abilityPoints.getD 12 + 2) 17
        { isNegative := false, abilityType := some abilityType, abilityPoints := pts,
          feedback := r.feedback.getD
            ("정말 멋진 선택이에요! " ++ abilityType ++ " 능력이 자랐어요.") }
  | .unavailable => analyze_fallback txt
  | .failure => analyze_fallback txt

/-! ## Character consistency store and the `generate-next-scene` /
`create-image-prompt` endpoints
(`src/app/api/endpoints/story_generation.py` lines 15-17, 126-164, 248-343,
715-869)

`CHARACTER_DESCRIPTIONS` is a module-level Python dict keyed by storyId;
it is modelled as an association list where the latest write shadows. -/

/-- The in-memory CHARACTER_DESCRIPTIONS dict. -/
abbrev CharStore := List (String × String)

/-- Dict lookup `CHARACTER_DESCRIPTIONS.get(k)`. -/
def storeGet (s : CharStore) (k : String) : Option String :=
  (List.find? (fun p => p.1 == k) s).map (fun p => p.2)

/-- Dict assignment `CHARACTER_DESCRIPTIONS[k] = v`. -/
def storeSet (s : CharStore) (k v : String) : CharStore :=
  (k, v) :: s

/-- One entry of `previousChoices` in a next-scene request (keys read with
`dict.get`, so each field is optional). -/
structure PrevChoice where
  sceneNumber : Option Int := none
  choiceText : Option String := none
  abilityType : Option String := none
deriving DecidableEq

/-- The fields of `NextSceneRequest` the modelled logic reads. -/
structure NextSceneReq where
  storyId : String
  sceneNumber : Int
  storyTitle : Option String := none
  previousChoices : List PrevChoice := []
deriving DecidableEq

/-- A choice built by `_fallback_next_scene` (`id`, `choiceId`, `label`,
`abilityType`, `abilityPoints`). -/
structure FallbackChoice where
  id : String
  choiceId : String
  label : String
  abilityType : String
  abilityPoints : Int
deriving DecidableEq

/-- The scene `_fallback_next_scene` builds. -/
structure FallbackScene where
  sceneNumber : Int
  text : String
  choices : List FallbackChoice
deriving DecidableEq

/-- `_fallback_next_scene(scene_number, story_title, previous_choices)`:
deterministic templated scene used whenever the endpoint's `try` block
fails or `OpenAIService` could not be imported.  Returns the scene and the
`isEnding` flag. -/
def fallback_next_scene (scene_number : Int) (story_title : String)
    (previous_choices : List PrevChoice) : FallbackScene × Bool :=
  let is_ending := scene_number ≥ 8
  let txt :=
    match previous_choices.getLast? with
    | some last =>
        let ability := last.abilityType.getD "능력"
        toString scene_number ++ "번째 장면입니다. \x27" ++ story_title ++
          "\x27 이야기가 계속됩니다. " ++ ability ++ " 능력이 성장하고 있어요."
    | none =>
        "\x27" ++ story_title ++ "\x27 이야기가 시작됩니다. 첫 번째 선택을 해보세요!"
  let txt := if is_ending then txt ++ " 이제 이야기가 끝나가고 있어요." else txt
  let sstr := toString scene_number
  let choices : List FallbackChoice :=
    if is_ending then []
    else
      [⟨"c" ++ sstr ++ "1", "c" ++ sstr ++ "1", "용기있게 행동하기", "용기", 2⟩,
       ⟨"c" ++ sstr ++ "2", "c" ++ sstr ++ "2", "친구와 함께하기", "우정", 2⟩,
       ⟨"c" ++ sstr ++ "3", "c" ++ sstr ++ "3", "창의적으로 해결하기", "창의성", 2⟩]
  ({ sceneNumber := scene_number, text := txt, choices := choices }, is_ending)

/-- Ability types appearing among the previous choices (the claim's notion
of "already seen" abilities; the source collects the same set as
`used_abilities` when prompting). -/
def seenAbilityTypes (prev : List PrevChoice) : List String :=
  prev.filterMap (fun c => c.abilityType)

/-- The parsed result of a successful
`OpenAIService.generate_next_scene_async` call, as the endpoint reads it:
`result.get("storyTitle")`, `result.get("characterDescription")`,
`result.get("isEnding", False)`. -/
structure GenSceneResult where
  storyTitle : Option String := none
  characterDescription : Option String := none
  isEnding : Bool := false
deriving DecidableEq

/-- Collaborator outcome for one `generate-next-scene` request.
`noService` = the `OpenAIService` import failed (no call is made);
`failure` = the call raised in the endpoint's `try` (API error, timeout, a
bad argument list — note the endpoint omits the service's required
`concerns` parameter); `success r` = the awaited call returned `r`.  A
malformed-JSON response is absorbed inside the service and surfaces as a
`success` whose result has no `storyTitle`/`characterDescription`. -/
inductive GenOutcome where
  | noService
  | failure
  | success (r : GenSceneResult)
deriving DecidableEq

/-- The observables of one `generate-next-scene` request that the claims
mention: the `character_description` argument supplied to the collaborator
call (`none` in the outer `Option` when no call was made), the response
payload's optional `storyTitle` key, the response payload's (never
present) `characterDescription` key, the fallback scene when the fallback
path ran, the `isEnding` flag, and the store after the request. -/
structure NextSceneStep where
  callCharacterDescription : Option (Option String)
  respStoryTitle : Option String
  respCharacterDescription : Option String
  fallbackScene : Option FallbackScene
  isEnding : Bool
  store : CharStore

/-- The `generate-next-scene` endpoint body: look up the stored descriptor,
call the collaborator with it, store `result["characterDescription"]` when
the requested scene number is 1 and the result carries one, and fall back
to `_fallback_next_scene` when the collaborator is missing or the call
raised.  The response dict gains a `storyTitle` key only when the result's
`storyTitle` is truthy; no path ever adds a `characterDescription` key to
the response. -/
def generate_next_scene_step (store : CharStore) (req : NextSceneReq)
    (out : GenOutcome) : NextSceneStep :=
  let character_description := storeGet store req.storyId
  let fallbackTitle := if optTruthy req.storyTitle then req.storyTitle.getD "" else "동화"
  match out with
  | .noService =>
      let fb := fallback_next_scene req.sceneNumber fallbackTitle req.previousChoices
      { callCharacterDescription := none, respStoryTitle := none,
        respCharacterDescription := none, fallbackScene := some fb.1,
        isEnding := fb.2, store := store }
  | .failure =>
      let fb := fallback_next_scene req.sceneNumber fallbackTitle req.previousChoices
      { callCharacterDescription := some character_description, respStoryTitle := none,
        respCharacterDescription := none, fallbackScene := some fb.1,
        isEnding := fb.2, store := store }
  | .success r =>
      let store' :=
        if req.sceneNumber = 1 ∧ optTruthy r.characterDescription then
          storeSet store req.storyId (r.characterDescription.getD "")
        else store
      { callCharacterDescription := some character_description,
        respStoryTitle := if optTruthy r.storyTitle then r.storyTitle else none,
        respCharacterDescription := none, fallbackScene := none,
        isEnding := r.isEnding, store := store' }

/-- The descriptor `create-image-prompt` uses (both on its collaborator
path, lines 736-741, and its fallback path, lines 849-852):
`req.characterDescription` when truthy, else the store lookup when
`req.storyId` is truthy, else `req.characterDescription` unchanged. -/
def image_prompt_character (store : CharStore) (reqCD : Option String)
    (storyId : Option String) : Option String :=
  if !optTruthy reqCD && optTruthy storyId then storeGet store (storyId.getD "")
  else reqCD

/-! ## Hybrid memory retriever
(`src/app/services/chat/memory_service.py` lines 61-355)

`get_recent_conversations` and `get_story_completions` wrap their HTTP
calls in `try/except` and return `[]` on any error; semantic search
returns `[]` when Pinecone is disabled or its call fails.  Each external
fetch is therefore a `Fetch` value: `ok xs` when the call returned `xs`,
`unreachable` when it raised (the caller sees `[]` either way, never an
exception — the totality of `get_relevant_context` below is the model of
"never raises"). -/

/-- Outcome of one external list-returning fetch. -/
inductive Fetch (α : Type) where
  | ok (xs : List α)
  | unreachable

/-- The list the caller actually receives from a fetch. -/
def fetchResult {α : Type} : Fetch α → List α
  | .ok xs => xs
  | .unreachable => []

/-- One recent-conversation record; only `message` is read by the summary. -/
structure RecentConv where
  message : String := ""
deriving DecidableEq

/-- One story-completion record as `_create_context_summary` reads it
(`storyTitle`, `childName`, and the five `total*` ability fields, each via
`dict.get` with its default). -/
structure StoryCompletion where
  storyTitle : Option String := none
  childName : Option String := none
  totalCourage : Int := 0
  totalEmpathy : Int := 0
  totalCreativity : Int := 0
  totalResponsibility : Int := 0
  totalFriendship : Int := 0
deriving DecidableEq

/-- One semantic match.  `scoreText` is the two-decimal rendering the
f-string `[유사도: {score:.2f}]` produces; the summary does no arithmetic
on the score, so the rendered text is carried as-is. -/
structure SimilarConv where
  message : String := ""
  response : String := ""
  scoreText : String := ""
deriving DecidableEq

/-- `_format_abilities`: the positive ability totals, in the dict's fixed
courage/empathy/creativity/responsibility/friendship order. -/
def format_abilities (c : StoryCompletion) : String :=
  let pairs : List (String × Int) :=
    [("용기", c.totalCourage), ("공감", c.totalEmpathy), ("창의성", c.totalCreativity),
     ("책임감", c.totalResponsibility), ("우정", c.totalFriendship)]
  let parts := (pairs.filter (fun p => p.2 > 0)).map
    (fun p => p.1 ++ "+" ++ toString p.2)
  if parts = [] then "능력치 없음" else String.intercalate ", " parts

/-- `_extract_topics_from_conversations`: join up to 3 messages longer than
3 characters with " / ", truncating at 100 characters. -/
def extract_topics (convs : List RecentConv) : String :=
  let messages := (convs.map (fun c => c.message)).filter (fun m => m.length > 3)
  if messages ≠ [] then
    let combined := String.intercalate " / " (messages.take 3)
    if combined.length > 100 then ⟨(combined.data.take 100)⟩ ++ "..." else combined
  else "대화 기록 없음"

/-- One summary line per completion: `  - '{title}' ({abilities})`. -/
def completionLine (c : StoryCompletion) : String :=
  "  - \x27" ++ (c.storyTitle.getD "알 수 없음") ++ "\x27 (" ++
    format_abilities c ++ ")"

/-- Lines block 1 of `_create_context_summary`: the story-completion
section (header plus the first 3 completions), empty when there are no
completions. -/
def completionSection (cs : List StoryCompletion) : List String :=
  if cs = [] then [] else "**완료한 동화:**" :: (cs.take 3).map completionLine

/-- Lines block 2: the recent-topic section over the first 5 recent
conversations, empty when there are none. -/
def recentSection (rs : List RecentConv) : List String :=
  if rs = [] then []
  else ["\n**최근 대화 주제:**", "  - " ++ extract_topics (rs.take 5)]

/-- The `[유사도: {score:.2f}]` tag of one semantic match. -/
def simScoreTag (c : SimilarConv) : String :=
  "[유사도: " ++ c.scoreText ++ "]"

/-- The three lines one enumerated semantic match contributes. -/
def simLinesOf (idx : Nat) (c : SimilarConv) : List String :=
  ["  " ++ toString idx ++ ". " ++ simScoreTag c,
   "     사용자: " ++ c.message,
   "     AI: " ++ c.response]

/-- Lines block 3: the semantic-match section (header plus three lines per
match, numbered from 1, first 5 matches), empty when there are no
matches. -/
def semanticSection (ss : List SimilarConv) : List String :=
  if ss = [] then []
  else "\n**관련된 과거 대화 (시맨틱 검색 결과):**" ::
    (((ss.take 5).enumFrom 1).map (fun p => simLinesOf p.1 p.2)).flatten

/-- The `childName` of the first of the first 3 completions that carries
one (`if child_name is None: child_name = story.get('childName')` inside
the loop over `story_completions[:3]`). -/
def firstChildName : List StoryCompletion → Option String
  | [] => none
  | c :: rest =>
      match c.childName with
      | some n => some n
      | none => firstChildName rest

/-- `_create_context_summary`: the three line blocks appended in source
order and joined with newlines, with the fixed no-history text when every
block is empty; paired with the extracted child name. -/
def create_context_summary (recent : List RecentConv)
    (comps : List StoryCompletion) (sims : List SimilarConv) :
    String × Option String :=
  let parts := completionSection comps ++ recentSection recent ++ semanticSection sims
  let summary := if parts = [] then "이전 대화 기록 없음" else joinParts parts
  (summary, firstChildName (comps.take 3))

/-- The dict `get_relevant_context` returns. -/
structure ContextResult where
  recent_conversations : List RecentConv
  similar_conversations : List SimilarConv
  story_completions : List StoryCompletion
  summary : String
  child_name : Option String
deriving DecidableEq

/-- `get_relevant_context(current_message, child_id, session_id)`:
fetch the recent conversations and story completions (each `[]` when its
fetch raised), run semantic search only when it is enabled (its own
failures also yield `[]`), and assemble the summary.  The function is
total: every collaborator outcome produces a result, which is how the
"never raises" contract is embedded. -/
def get_relevant_context (recentF : Fetch RecentConv)
    (compF : Fetch StoryCompletion) (useSemantic : Bool)
    (semF : Fetch SimilarConv) : ContextResult :=
  let recent := fetchResult recentF
  let comps := fetchResult compF
  let sims := if useSemantic then fetchResult semF else []
  let s := create_context_summary recent comps sims
  { recent_conversations := recent, similar_conversations := sims,
    story_completions := comps, summary := s.1, child_name := s.2 }

/-! ## Recommendation search deduplication
(`src/app/services/story/story_generator.py` lines 133-280)

`search_stories` queries Pinecone with `top_k * 2` and walks the matches,
skipping a match whose id or resolved title was already taken and
breaking once `top_k` stories are collected;
`recommend_stories_async` searches with `top_k = limit * 3`, drops
already-read story ids, and keeps the first `limit`. -/

/-- One Pinecone match as the dedup loop reads it: its optional id, its
metadata title (optional, defaulted to "제목 없음"), and its
`matching_score` (the source's `int(float(score) * 100)`; the conversion
is kept already applied since no later step reads the raw float). -/
structure PineMatch where
  mid : Option String := none
  title : Option String := none
  matchingScore : Int := 0
deriving DecidableEq

/-- One normalized story of the search result. -/
structure StoryItem where
  storyId : Option String
  title : String
  matchingScore : Int
deriving DecidableEq

/-- The dedup loop of `search_stories`: `seenIds`/`seenTitles` are the two
`set()`s, `count` is `len(stories)` so far; a fresh match is appended and
the loop breaks as soon as `top_k` stories are collected. -/
def dedupGo (top_k : Nat) (seenIds : List (Option String))
    (seenTitles : List String) (count : Nat) : List PineMatch → List StoryItem
  | [] => []
  | m :: rest =>
      let title := m.title.getD "제목 없음"
      if m.mid ∈ seenIds ∨ title ∈ seenTitles then
        dedupGo top_k seenIds seenTitles count rest
      else
        let item : StoryItem := ⟨m.mid, title, m.matchingScore⟩
        if top_k ≤ count + 1 then [item]
        else item :: dedupGo top_k (m.mid :: seenIds) (title :: seenTitles)
          (count + 1) rest

/-- `search_stories` on the Pinecone path, from the raw match list
(already `_normalize`d field names). -/
def search_stories_dedup (ms : List PineMatch) (top_k : Nat) : List StoryItem :=
  dedupGo top_k [] [] 0 ms

/-- `recommend_stories_async`: search with `top_k = limit * 3`, drop the
stories the child already read, keep the first `limit` (the AI-summary
enrichment touches only metadata and is omitted). -/
def recommend_stories (ms : List PineMatch) (read_story_ids : List String)
    (limit : Nat) : List StoryItem :=
  let stories := search_stories_dedup ms (limit * 3)
  (stories.filter (fun s =>
    match s.storyId with
    | some i => !read_story_ids.contains i
    | none => true)).take limit

/-! ## Concrete inputs used by the claim theorems -/

/-- Whether any keyword of any tier of one ability matches the text. -/
def abilityAnyKeyword (a : AbilityKeywords) (txt : String) : Bool :=
  (a.strong ++ a.medium ++ a.weak).any (fun k => pyContains txt k)

/-- The concrete candidate list of the spec scenario: 10 raw Pinecone
matches of which 3 share a title with an earlier match (7 distinct
titles). -/
def c9Matches : List PineMatch :=
  [⟨some "s1", some "토끼의 모험", 96⟩,
   ⟨some "s2", some "작은 별의 용기", 93⟩,
   ⟨some "s3", some "토끼의 모험", 91⟩,
   ⟨some "s4", some "숲속 친구들", 89⟩,
   ⟨some "s5", some "작은 별의 용기", 88⟩,
   ⟨some "s6", some "화난 토끼의 하루", 85⟩,
   ⟨some "s7", some "마법의 모험", 82⟩,
   ⟨some "s8", some "숲속 친구들", 80⟩,
   ⟨some "s9", some "바다 여행", 78⟩,
   ⟨some "s10", some "구름 위의 집", 75⟩]

/-- Concrete completion history refuting the earliest-record reading of
the child-name extraction: four completion records, most recent first (the
order the structured store returns), where only the earliest (last) record
carries a `childName`. -/
def c8Completions : List StoryCompletion :=
  [{ storyTitle := some "마법의 모험" },
   { storyTitle := some "숲속 친구들" },
   { storyTitle := some "작은 별의 용기" },
   { storyTitle := some "용감한 디노", childName := some "민준" }]

/-! ## Lemmas -/

theorem string_eq_empty_iff (s : String) : s = "" ↔ s.data = [] := by
  cases s
  simp [String.ext_iff]

theorem optTruthy_some_iff (s : String) : optTruthy (some s) = true ↔ s ≠ "" := by
  simp [optTruthy, List.isEmpty_iff, string_eq_empty_iff]

theorem char_isPrefixOf_iff : ∀ (n h : List Char), n.isPrefixOf h = true ↔ n <+: h
  | [], _ => by simp [List.isPrefixOf]
  | _ :: _, [] => by simp [List.isPrefixOf]
  | a :: n, b :: h => by
      simp [List.isPrefixOf, List.cons_prefix_cons, char_isPrefixOf_iff n h,
        Bool.and_eq_true, beq_iff_eq]

theorem listContainsSub_iff_occurs : ∀ (n h : List Char),
    listContainsSub n h = true ↔ n <:+: h
  | n, [] => by
      simp [listContainsSub, List.isEmpty_iff]
  | n, c :: h => by
      rw [listContainsSub, Bool.or_eq_true, char_isPrefixOf_iff,
        listContainsSub_iff_occurs n h]
      exact (List.infix_cons_iff).symm

theorem string_data_append (a b : String) : (a ++ b).data = a.data ++ b.data := by
  cases a; cases b; rfl

/-- If the needle's characters occur contiguously in the hay's, Python's
`in` succeeds. -/
theorem pyContains_of_occurs {hay needle : String}
    (h : needle.data <:+: hay.data) : pyContains hay needle = true :=
  (listContainsSub_iff_occurs _ _).mpr h

theorem pyContains_append_mid (a m b : String) :
    pyContains (a ++ m ++ b) m = true := by
  apply pyContains_of_occurs
  rw [string_data_append, string_data_append]
  exact ⟨a.data, b.data, by simp⟩

theorem pyStartsWith_append (pre rest : String) :
    pyStartsWith (pre ++ rest) pre = true := by
  unfold pyStartsWith
  rw [string_data_append, char_isPrefixOf_iff]
  exact List.prefix_append _ _

theorem pyStartsWith_self (s : String) : pyStartsWith s s = true := by
  unfold pyStartsWith
  rw [char_isPrefixOf_iff]

/-- Every element of a part list occurs contiguously in the joined string. -/
theorem mem_joinParts_occurs : ∀ {parts : List String} {x : String},
    x ∈ parts → x.data <:+: (joinParts parts).data
  | [], _, hx => absurd hx (List.not_mem_nil _)
  | [_], x, hx => by
      rcases List.mem_singleton.mp hx with rfl
      exact List.infix_rfl
  | a :: b :: rest, x, hx => by
      rcases List.mem_cons.mp hx with rfl | hx
      · show x.data <:+: (x ++ "\n" ++ joinParts (b :: rest)).data
        rw [string_data_append, string_data_append]
        exact ⟨[], ("\n".data ++ (joinParts (b :: rest)).data), by simp⟩
      · have ih := mem_joinParts_occurs hx
        show x.data <:+: (a ++ "\n" ++ joinParts (b :: rest)).data
        rw [string_data_append, string_data_append]
        exact ih.trans ⟨a.data ++ "\n".data, [], by simp⟩

theorem pyContains_joinParts_of_mem {parts : List String} {x : String}
    (hx : x ∈ parts) : pyContains (joinParts parts) x = true :=
  pyContains_of_occurs (mem_joinParts_occurs hx)

/-- Joining a concatenation of two nonempty part lists splits on the
separator between them. -/
theorem joinParts_append : ∀ (a : List String) {b : List String},
    a ≠ [] → b ≠ [] → joinParts (a ++ b) = joinParts a ++ "\n" ++ joinParts b
  | [], _, ha, _ => absurd rfl ha
  | [x], b, _, hb => by
      cases b with
      | nil => exact absurd rfl hb
      | cons y ys => simp [joinParts]
  | x :: y :: xs, b, _, hb => by
      have ih := joinParts_append (y :: xs) (by simp) hb
      show joinParts (x :: ((y :: xs) ++ b)) = _
      cases b with
      | nil => exact absurd rfl hb
      | cons z zs =>
          simp only [List.cons_append, joinParts, List.append_eq]
          simp only [List.cons_append] at ih
          rw [ih]
          simp [String.append_assoc]

theorem storeGet_storeSet (s : CharStore) (k v : String) :
    storeGet (storeSet s k v) k = some v := by
  simp [storeGet, storeSet, List.find?]
theorem match_positive_go_nomatch : ∀ (l : List AbilityKeywords) (txt : String),
    l.all (fun a => !abilityAnyKeyword a txt) = true →
    match_positive_go txt l = ("책임감", 10, "fallback")
  | [], _, _ => rfl
  | a :: rest, txt, h => by
      rw [List.all_cons, Bool.and_eq_true] at h
      obtain ⟨ha, hrest⟩ := h
      rw [Bool.not_eq_true'] at ha
      unfold abilityAnyKeyword at ha
      rw [List.any_append, List.any_append] at ha
      simp only [Bool.or_eq_false_iff] at ha
      obtain ⟨⟨h1, h2⟩, h3⟩ := ha
      rw [match_positive_go, h1, h2, h3]
      simp only [Bool.false_eq_true, if_false]
      exact match_positive_go_nomatch rest txt hrest

theorem match_positive_courage_first (txt : String)
    (h : abilityAnyKeyword courageKeywords txt = true) :
    (match_positive txt).1 = "용기" := by
  unfold abilityAnyKeyword at h
  rw [List.any_append, List.any_append, Bool.or_eq_true, Bool.or_eq_true] at h
  unfold match_positive
  rw [show POSITIVE_KEYWORDS = courageKeywords :: [empathyKeywords, creativityKeywords,
    responsibilityKeywords, friendshipKeywords] from rfl]
  rw [match_positive_go]
  by_cases h1 : courageKeywords.strong.any (fun k => pyContains txt k) = true
  · rw [h1]; rfl
  · rw [Bool.not_eq_true] at h1
    rw [h1]
    simp only [Bool.false_eq_true, if_false]
    by_cases h2 : courageKeywords.medium.any (fun k => pyContains txt k) = true
    · rw [h2]; rfl
    · rw [Bool.not_eq_true] at h2
      rw [h2]
      simp only [Bool.false_eq_true, if_false]
      have h3 : courageKeywords.weak.any (fun k => pyContains txt k) = true := by
        rcases h with (h | h) | h
        · exact absurd h (by rw [h1]; simp)
        · exact absurd h (by rw [h2]; simp)
        · exact h
      rw [h3]
      rfl

theorem joinParts_startsWith (x : String) (xs : List String) :
    pyStartsWith (joinParts (x :: xs)) x = true := by
  cases xs with
  | nil => exact pyStartsWith_self x
  | cons y ys =>
      show pyStartsWith (x ++ "\n" ++ joinParts (y :: ys)) x = true
      rw [String.append_assoc]
      exact pyStartsWith_append _ _

theorem create_context_summary_fst (r : List RecentConv) (c : List StoryCompletion)
    (s : List SimilarConv) :
    (create_context_summary r c s).1 =
      if completionSection c ++ recentSection r ++ semanticSection s = []
      then "이전 대화 기록 없음"
      else joinParts (completionSection c ++ recentSection r ++ semanticSection s) := rfl

theorem create_context_summary_snd (r : List RecentConv) (c : List StoryCompletion)
    (s : List SimilarConv) :
    (create_context_summary r c s).2 = firstChildName (c.take 3) := rfl

theorem firstChildName_none : ∀ (l : List StoryCompletion),
    (∀ c ∈ l, c.childName = none) → firstChildName l = none
  | [], _ => rfl
  | c :: rest, h => by
      rw [firstChildName, h c (List.mem_cons_self _ _)]
      exact firstChildName_none rest (fun c2 hc2 => h c2 (List.mem_cons_of_mem _ hc2))

theorem dedupGo_length_le : ∀ (ms : List PineMatch) (k : Nat)
    (seenI : List (Option String)) (seenT : List String) (c : Nat), c < k →
    (dedupGo k seenI seenT c ms).length ≤ k - c
  | [], _, _, _, _, _ => by simp [dedupGo]
  | m :: rest, k, seenI, seenT, c, hck => by
      rw [dedupGo]
      by_cases hseen : m.mid ∈ seenI ∨ (m.title.getD "제목 없음") ∈ seenT
      · rw [if_pos hseen]
        exact dedupGo_length_le rest k seenI seenT c hck
      · rw [if_neg hseen]
        by_cases hfull : k ≤ c + 1
        · rw [if_pos hfull]
          simpa using Nat.le_sub_of_add_le (by omega)
        · rw [if_neg hfull]
          have ih := dedupGo_length_le rest k (m.mid :: seenI)
            ((m.title.getD "제목 없음") :: seenT) (c + 1) (by omega)
          simp only [List.length_cons]
          omega

theorem dedupGo_titles : ∀ (ms : List PineMatch) (k : Nat)
    (seenI : List (Option String)) (seenT : List String) (c : Nat),
    ((dedupGo k seenI seenT c ms).map (fun i => i.title)).Nodup ∧
    (∀ i ∈ dedupGo k seenI seenT c ms, i.title ∉ seenT) ∧
    ((dedupGo k seenI seenT c ms).map (fun i => i.storyId)).Nodup ∧
    (∀ i ∈ dedupGo k seenI seenT c ms, i.storyId ∉ seenI)
  | [], _, _, _, _ => by simp [dedupGo]
  | m :: rest, k, seenI, seenT, c => by
      rw [dedupGo]
      by_cases hseen : m.mid ∈ seenI ∨ (m.title.getD "제목 없음") ∈ seenT
      · rw [if_pos hseen]
        exact dedupGo_titles rest k seenI seenT c
      · rw [if_neg hseen]
        push_neg at hseen
        obtain ⟨hid, htitle⟩ := hseen
        by_cases hfull : k ≤ c + 1
        · rw [if_pos hfull]
          refine ⟨by simp, ?_, by simp, ?_⟩
          · intro i hi
            rcases List.mem_singleton.mp hi with rfl
            exact htitle
          · intro i hi
            rcases List.mem_singleton.mp hi with rfl
            exact hid
        · rw [if_neg hfull]
          obtain ⟨ihT, ihTs, ihI, ihIs⟩ := dedupGo_titles rest k (m.mid :: seenI)
            ((m.title.getD "제목 없음") :: seenT) (c + 1)
          refine ⟨?_, ?_, ?_, ?_⟩
          · rw [List.map_cons, List.nodup_cons]
            refine ⟨?_, ihT⟩
            intro hmem
            rcases List.mem_map.mp hmem with ⟨i, hi, hti⟩
            exact ihTs i hi (hti ▸ List.mem_cons_self _ _)
          · intro i hi
            rcases List.mem_cons.mp hi with rfl | hi
            · exact htitle
            · exact fun hmem => ihTs i hi (List.mem_cons_of_mem _ hmem)
          · rw [List.map_cons, List.nodup_cons]
            refine ⟨?_, ihI⟩
            intro hmem
            rcases List.mem_map.mp hmem with ⟨i, hi, hti⟩
            exact ihIs i hi (hti ▸ List.mem_cons_self _ _)
          · intro i hi
            rcases List.mem_cons.mp hi with rfl | hi
            · exact hid
            · exact fun hmem => ihIs i hi (List.mem_cons_of_mem _ hmem)

/-! ## Claim theorems -/

/-- Claim C2 (evaluation at the failing input): the spec's example text
"동생을 때려줄거야" does not trigger the negative short-circuit.  The
conjugated "때려" contains no keyword of the NEGATIVE_KEYWORDS table (the
table lists the stem "때리" but no conjugation covering "때려"), so with
the collaborator unavailable — and identically on collaborator failure —
`analyze-custom-choice` classifies the violent text as a positive 책임감
choice worth 12 points instead of returning
isNegative=true/abilityPoints=0/abilityType=null. -/
theorem claim_C2_code_evaluation :
    pyContains (pyLower "동생을 때려줄거야") "때리" = false ∧
    check_negative (pyLower "동생을 때려줄거야") = (false, none) ∧
    analyze_custom_choice "동생을 때려줄거야" .unavailable =
      { isNegative := false, abilityType := some "책임감", abilityPoints := 12,
        feedback := "멋진 선택이에요! 책임감 능력이 자랐어요 (+12점)" } ∧
    analyze_custom_choice "동생을 때려줄거야" .failure =
      { isNegative := false, abilityType := some "책임감", abilityPoints := 12,
        feedback := "멋진 선택이에요! 책임감 능력이 자랐어요 (+12점)" } := by
  refine ⟨by decide, by decide, by decide, by decide⟩

/-- Claim C6: on the collaborator-free fallback path,
`analyze-custom-choice` classifies "무서워도 도전해볼게" as 용기 with
14 points: the strong-tier keyword "도전" gives base 12, plus the fixed
custom-choice bonus of 2, under the cap of 17.  The same result is
produced whether the collaborator is unavailable or its call failed. -/
theorem claim_C6_fallback_courage :
    match_positive (pyLower "무서워도 도전해볼게") = ("용기", 12, "strong") ∧
    analyze_custom_choice "무서워도 도전해볼게" .unavailable =
      { isNegative := false, abilityType := some "용기", abilityPoints := 14,
        feedback := "멋진 선택이에요! 용기 능력이 자랐어요 (+14점)" } ∧
    analyze_custom_choice "무서워도 도전해볼게" .failure =
      { isNegative := false, abilityType := some "용기", abilityPoints := 14,
        feedback := "멋진 선택이에요! 용기 능력이 자랐어요 (+14점)" } := by
  refine ⟨by decide, by decide, by decide⟩

/-- Claim C7: for every request text and every collaborator outcome, the
`abilityPoints` value `analyze-custom-choice` returns is at most 17; on
the collaborator success path (non-negative verdict) the value is exactly
the collaborator's points (default 12) plus the fixed custom-choice bonus
of 2, capped at 17, and on the fallback path (non-negative keyword screen)
it is exactly the keyword-tier base plus 2, capped at 17. -/
theorem claim_C7_points_capped :
    (∀ (text : String) (llm : LlmOutcome),
      (analyze_custom_choice text llm).abilityPoints ≤ 17) ∧
    (∀ (text : String) (r : LlmChoiceResult), r.isNegative = false →
      (analyze_custom_choice text (.success r)).abilityPoints =
        min (r.abilityPoints.getD 12 + 2) 17) ∧
    (∀ (text : String), (check_negative (pyLower text)).1 = false →
      (analyze_custom_choice text .failure).abilityPoints =
        min ((match_positive (pyLower text)).2.1 + 2) 17) := by
  refine ⟨?_, ?_, ?_⟩
  · intro text llm
    cases llm with
    | success r =>
        by_cases hneg : r.isNegative = true
        · simp [analyze_custom_choice, hneg]
        · rw [Bool.not_eq_true] at hneg
          simp [analyze_custom_choice, hneg]
    | unavailable =>
        unfold analyze_custom_choice analyze_fallback
        rcases hc : check_negative (pyLower text) with ⟨b, lvl⟩
        cases b
        · simp [hc]
        · simp [hc]
    | failure =>
        unfold analyze_custom_choice analyze_fallback
        rcases hc : check_negative (pyLower text) with ⟨b, lvl⟩
        cases b
        · simp [hc]
        · simp [hc]
  · intro text r hneg
    simp [analyze_custom_choice, hneg]
  · intro text hfst
    unfold analyze_custom_choice analyze_fallback
    rcases hc : check_negative (pyLower text) with ⟨b, lvl⟩
    rw [hc] at hfst
    cases b
    · simp [hc]
    · simp at hfst

/-- Claim C7 witness: the cap and the exact +2-then-cap computation at
concrete inputs. -/
theorem claim_C7_witness :
    (analyze_custom_choice "무서워도 도전해볼게" .unavailable).abilityPoints ≤ 17 ∧
    (analyze_custom_choice "같이 가자" (.success { abilityPoints := some 15 })).abilityPoints =
      min ((15 : Int) + 2) 17 :=
  ⟨claim_C7_points_capped.1 "무서워도 도전해볼게" .unavailable,
   claim_C7_points_capped.2.1 "같이 가자" { abilityPoints := some 15 } rfl⟩

/-- Claim C10: the fallback ability match tries the abilities in the fixed
declaration order 용기, 공감, 창의성, 책임감, 우정 and the first ability
with any matching keyword wins — so the weak-tier 용기 keyword "시도"
beats the strong-tier 우정 keyword "협력했어" in
"시도하며 협력했어" — and a text matching no keyword at all defaults to
책임감 with base 10 points. -/
theorem claim_C10_declaration_order :
    POSITIVE_KEYWORDS.map (fun a => a.ability) =
      ["용기", "공감", "창의성", "책임감", "우정"] ∧
    (∀ txt : String, abilityAnyKeyword courageKeywords txt = true →
      (match_positive txt).1 = "용기") ∧
    match_positive "시도하며 협력했어" = ("용기", 8, "weak") ∧
    abilityAnyKeyword friendshipKeywords "시도하며 협력했어" = true ∧
    (∀ txt : String, POSITIVE_KEYWORDS.all (fun a => !abilityAnyKeyword a txt) = true →
      match_positive txt = ("책임감", 10, "fallback")) :=
  ⟨by decide, match_positive_courage_first, by decide, by decide,
   fun txt h => match_positive_go_nomatch POSITIVE_KEYWORDS txt h⟩

/-- Claim C10 witness: the ability-order rule and the no-match default at
concrete inputs. -/
theorem claim_C10_witness :
    (match_positive "도전").1 = "용기" ∧
    match_positive "xyz" = ("책임감", 10, "fallback") :=
  ⟨claim_C10_declaration_order.2.1 "도전" (by decide),
   claim_C10_declaration_order.2.2.2.2 "xyz" (by decide)⟩

/-- Claim C1 counterexample: the stored scene-1 descriptor is *not*
supplied to every image-prompt call for the same story id.  With "A"
stored for story "s", an image-prompt request for story "s" that itself
carries characterDescription "B" uses "B": the caller-supplied value takes
precedence over the store (`create-image-prompt` consults the store only
when the request's characterDescription is falsy). -/
theorem claim_C1_counterexample :
    storeGet [("s", "A")] "s" = some "A" ∧
    image_prompt_character [("s", "A")] (some "B") (some "s") = some "B" := by
  refine ⟨by decide, by decide⟩

/-- Claim C1 (amended): the descriptor argument of every collaborator
scene-generation call is exactly the store lookup for the request's story
id (hence byte-identical to whatever scene 1 stored); `generate-next-scene`
mutates the store only when the requested scene number is 1; a scene-1
success whose result carries a non-empty characterDescription makes the
store return exactly that string for the story id afterwards; and an
image-prompt call that carries no characterDescription of its own receives
the store lookup verbatim. -/
theorem claim_C1_descriptor_propagation :
    (∀ (store : CharStore) (req : NextSceneReq) (out : GenOutcome),
      out ≠ .noService →
      (generate_next_scene_step store req out).callCharacterDescription =
        some (storeGet store req.storyId)) ∧
    (∀ (store : CharStore) (req : NextSceneReq) (out : GenOutcome),
      req.sceneNumber ≠ 1 →
      (generate_next_scene_step store req out).store = store) ∧
    (∀ (store : CharStore) (req : NextSceneReq) (r : GenSceneResult) (d : String),
      req.sceneNumber = 1 → r.characterDescription = some d → d ≠ "" →
      storeGet (generate_next_scene_step store req (.success r)).store req.storyId =
        some d) ∧
    (∀ (store : CharStore) (sid : String),
      image_prompt_character store none (some sid) =
        if sid = "" then none else storeGet store sid) := by
  refine ⟨?_, ?_, ?_, ?_⟩
  · intro store req out hout
    cases out with
    | noService => exact absurd rfl hout
    | failure => rfl
    | success r => rfl
  · intro store req out hne
    cases out with
    | noService => rfl
    | failure => rfl
    | success r =>
        simp [generate_next_scene_step, hne]
  · intro store req r d h1 hd hne
    have ht : optTruthy (some d) = true := (optTruthy_some_iff d).mpr hne
    simp [generate_next_scene_step, h1, hd, ht, storeGet_storeSet]
  · intro store sid
    by_cases hs : sid = ""
    · subst hs
      simp [image_prompt_character, optTruthy]
    · have hd : sid.data.isEmpty = false := by
        rw [Bool.eq_false_iff]
        intro hc
        exact hs ((string_eq_empty_iff sid).mpr (List.isEmpty_iff.mp hc))
      simp [image_prompt_character, optTruthy, hd, hs]

/-- Claim C1 witness: the propagation chain at concrete inputs — a scene-1
success stores "a cute white rabbit" for story "s1", a later scene-2 call
is handed exactly that string, and the store is untouched by the scene-2
request. -/
theorem claim_C1_witness :
    storeGet (generate_next_scene_step [] ⟨"s1", 1, none, []⟩
        (.success { characterDescription := some "a cute white rabbit" })).store "s1" =
      some "a cute white rabbit" ∧
    (generate_next_scene_step [("s1", "a cute white rabbit")] ⟨"s1", 2, none, []⟩
        .failure).callCharacterDescription = some (storeGet [("s1", "a cute white rabbit")] "s1") ∧
    (generate_next_scene_step [("s1", "a cute white rabbit")] ⟨"s1", 2, none, []⟩
        .failure).store = [("s1", "a cute white rabbit")] :=
  ⟨claim_C1_descriptor_propagation.2.2.1 [] ⟨"s1", 1, none, []⟩
      { characterDescription := some "a cute white rabbit" } "a cute white rabbit"
      rfl rfl (by decide),
   claim_C1_descriptor_propagation.1 [("s1", "a cute white rabbit")]
      ⟨"s1", 2, none, []⟩ .failure (by simp),
   claim_C1_descriptor_propagation.2.1 [("s1", "a cute white rabbit")]
      ⟨"s1", 2, none, []⟩ .failure (by decide)⟩

/-- Claim C5 counterexample: a scene-1 request with seed title
"소풍 가는 날" under collaborator failure returns a payload with no
generated title at all (the fallback adds no storyTitle key), no
characterDescription (no response ever carries one), and hands nothing to
the character store. -/
theorem claim_C5_counterexample :
    (generate_next_scene_step [] ⟨"picnic", 1, some "소풍 가는 날", []⟩
        .failure).respStoryTitle = none ∧
    (generate_next_scene_step [] ⟨"picnic", 1, some "소풍 가는 날", []⟩
        .failure).respCharacterDescription = none ∧
    (generate_next_scene_step [] ⟨"picnic", 1, some "소풍 가는 날", []⟩
        .failure).store = [] := by
  refine ⟨rfl, rfl, rfl⟩

/-- Claim C5 (amended): only on the collaborator success path, and only
when the collaborator's scene-1 result carries them, does the response
include a storyTitle (passed through verbatim, with no check that it
differs from the seed title) — and the result's characterDescription is
handed to the character consistency store; the response payload itself
never carries a characterDescription key. -/
theorem claim_C5_scene1_success :
    ∀ (store : CharStore) (req : NextSceneReq) (r : GenSceneResult),
      req.sceneNumber = 1 → optTruthy r.storyTitle = true →
      optTruthy r.characterDescription = true →
      (generate_next_scene_step store req (.success r)).respStoryTitle = r.storyTitle ∧
      storeGet (generate_next_scene_step store req (.success r)).store req.storyId =
        r.characterDescription ∧
      (generate_next_scene_step store req (.success r)).respCharacterDescription = none := by
  intro store req r h1 hst hcd
  refine ⟨by simp [generate_next_scene_step, hst], ?_, rfl⟩
  rcases r with ⟨st, cd, ie⟩
  cases cd with
  | none => simp [optTruthy] at hcd
  | some d =>
      simp [generate_next_scene_step, h1, hcd, storeGet_storeSet]

/-- Claim C5 witness: a concrete scene-1 success whose result carries a
title and a descriptor. -/
theorem claim_C5_witness :
    (generate_next_scene_step [] ⟨"picnic", 1, some "소풍 가는 날", []⟩
        (.success ⟨some "용감한 꼬마 토끼", some "a cute white rabbit", false⟩)).respStoryTitle =
      some "용감한 꼬마 토끼" ∧
    storeGet (generate_next_scene_step [] ⟨"picnic", 1, some "소풍 가는 날", []⟩
        (.success ⟨some "용감한 꼬마 토끼", some "a cute white rabbit", false⟩)).store
      "picnic" = some "a cute white rabbit" ∧
    (generate_next_scene_step [] ⟨"picnic", 1, some "소풍 가는 날", []⟩
        (.success ⟨some "용감한 꼬마 토끼", some "a cute white rabbit", false⟩)).respCharacterDescription =
      none :=
  claim_C5_scene1_success [] ⟨"picnic", 1, some "소풍 가는 날", []⟩
    ⟨some "용감한 꼬마 토끼", some "a cute white rabbit", false⟩ rfl (by decide) (by decide)

/-- Claim C4 counterexample: the fallback scene's three choices do not
each cover an ability "not yet seen among the previous choices".  With a
previous 용기 choice recorded, the fallback for scene 2 still offers its
fixed 용기 choice. -/
theorem claim_C4_counterexample :
    ¬ (∀ c ∈ (fallback_next_scene 2 "동화"
        [⟨some 1, some "용기있게 행동하기", some "용기"⟩]).1.choices,
        c.abilityType ∉ seenAbilityTypes
          [⟨some 1, some "용기있게 행동하기", some "용기"⟩]) := by
  decide

/-- Claim C4 (amended): the endpoint-level fallback
(`_fallback_next_scene`, used whenever the collaborator is missing or its
call raised inside the endpoint handler) is deterministic templated
content that contains the story title and — when there are previous
choices — the last choice's ability type; it carries exactly 3 canonical
choices with the fixed abilities 용기, 우정, 창의성 (regardless of which
abilities were already seen) for scene numbers below 8, and an empty
choice list with isEnding true for scene numbers 8 and above. -/
theorem claim_C4_fallback_shape :
    ∀ (n : Int) (title : String) (prev : List PrevChoice),
      (n < 8 →
        ((fallback_next_scene n title prev).1.choices.map (fun c => c.abilityType)) =
          ["용기", "우정", "창의성"] ∧
        (fallback_next_scene n title prev).2 = false) ∧
      (8 ≤ n →
        (fallback_next_scene n title prev).1.choices = [] ∧
        (fallback_next_scene n title prev).2 = true) ∧
      pyContains (fallback_next_scene n title prev).1.text title = true ∧
      (∀ last, prev.getLast? = some last →
        pyContains (fallback_next_scene n title prev).1.text
          (last.abilityType.getD "능력") = true) := by
  intro n title prev
  refine ⟨?_, ?_, ?_, ?_⟩
  · intro hlt
    have h8 : ¬ 8 ≤ n := not_le.mpr hlt
    exact ⟨by simp [fallback_next_scene, h8], by simp [fallback_next_scene, h8]⟩
  · intro h8
    exact ⟨by simp [fallback_next_scene, h8], by simp [fallback_next_scene, h8]⟩
  · cases hl : prev.getLast? with
    | none =>
        by_cases h8 : 8 ≤ n
        · have ht : (fallback_next_scene n title prev).1.text =
              "\x27" ++ title ++
                ("\x27 이야기가 시작됩니다. 첫 번째 선택을 해보세요!" ++
                  " 이제 이야기가 끝나가고 있어요.") := by
            simp [fallback_next_scene, hl, h8, String.append_assoc]
          rw [ht]
          exact pyContains_append_mid _ _ _
        · have ht : (fallback_next_scene n title prev).1.text =
              "\x27" ++ title ++ "\x27 이야기가 시작됩니다. 첫 번째 선택을 해보세요!" := by
            simp [fallback_next_scene, hl, h8]
          rw [ht]
          exact pyContains_append_mid _ _ _
    | some last =>
        by_cases h8 : 8 ≤ n
        · have ht : (fallback_next_scene n title prev).1.text =
              (toString n ++ "번째 장면입니다. \x27") ++ title ++
                ("\x27 이야기가 계속됩니다. " ++ (last.abilityType.getD "능력") ++
                  (" 능력이 성장하고 있어요." ++ " 이제 이야기가 끝나가고 있어요.")) := by
            simp [fallback_next_scene, hl, h8, String.append_assoc]
          rw [ht]
          exact pyContains_append_mid _ _ _
        · have ht : (fallback_next_scene n title prev).1.text =
              (toString n ++ "번째 장면입니다. \x27") ++ title ++
                ("\x27 이야기가 계속됩니다. " ++ (last.abilityType.getD "능력") ++
                  " 능력이 성장하고 있어요.") := by
            simp [fallback_next_scene, hl, h8, String.append_assoc]
          rw [ht]
          exact pyContains_append_mid _ _ _
  · intro last hl
    by_cases h8 : 8 ≤ n
    · have ht : (fallback_next_scene n title prev).1.text =
          (toString n ++ "번째 장면입니다. \x27" ++ title ++ "\x27 이야기가 계속됩니다. ") ++
            (last.abilityType.getD "능력") ++
            (" 능력이 성장하고 있어요." ++ " 이제 이야기가 끝나가고 있어요.") := by
        simp [fallback_next_scene, hl, h8, String.append_assoc]
      rw [ht]
      exact pyContains_append_mid _ _ _
    · have ht : (fallback_next_scene n title prev).1.text =
          (toString n ++ "번째 장면입니다. \x27" ++ title ++ "\x27 이야기가 계속됩니다. ") ++
            (last.abilityType.getD "능력") ++ " 능력이 성장하고 있어요." := by
        simp [fallback_next_scene, hl, h8, String.append_assoc]
      rw [ht]
      exact pyContains_append_mid _ _ _

/-- Claim C4 witness: the amended shape at concrete inputs — scene 3 with
a previous 공감 choice gets the fixed three abilities and text containing
the title and 공감; scene 8 ends with no choices. -/
theorem claim_C4_witness :
    ((fallback_next_scene 3 "숲속 친구들" [⟨some 2, some "친구를 도와줘요", some "공감"⟩]).1.choices.map
      (fun c => c.abilityType)) = ["용기", "우정", "창의성"] ∧
    pyContains (fallback_next_scene 3 "숲속 친구들"
      [⟨some 2, some "친구를 도와줘요", some "공감"⟩]).1.text "숲속 친구들" = true ∧
    (fallback_next_scene 8 "숲속 친구들" []).1.choices = [] ∧
    (fallback_next_scene 8 "숲속 친구들" []).2 = true :=
  ⟨((claim_C4_fallback_shape 3 "숲속 친구들"
      [⟨some 2, some "친구를 도와줘요", some "공감"⟩]).1 (by decide)).1,
   (claim_C4_fallback_shape 3 "숲속 친구들"
      [⟨some 2, some "친구를 도와줘요", some "공감"⟩]).2.2.1,
   ((claim_C4_fallback_shape 8 "숲속 친구들" []).2.1 (by decide)).1,
   ((claim_C4_fallback_shape 8 "숲속 친구들" []).2.1 (by decide)).2⟩
/-- Claim C3: `get_relevant_context` degrades gracefully — when the
structured store is unreachable both structured lists come back empty
(the fetch wrappers return `[]` instead of raising, and the retriever is a
total function); with semantic search disabled the similar-conversation
list is empty and the summary is exactly the assembly built from the two
structured sources alone (the semantic section of an empty match list is
no lines at all); a failing semantic search also yields an empty list;
and with every source empty the summary is the fixed no-history text. -/
theorem claim_C3_graceful_degradation :
    (∀ (useSem : Bool) (semF : Fetch SimilarConv),
      (get_relevant_context .unreachable .unreachable useSem semF).recent_conversations =
        [] ∧
      (get_relevant_context .unreachable .unreachable useSem semF).story_completions =
        []) ∧
    (∀ (a : Fetch RecentConv) (b : Fetch StoryCompletion) (semF : Fetch SimilarConv),
      (get_relevant_context a b false semF).similar_conversations = [] ∧
      (get_relevant_context a b false semF).summary =
        (create_context_summary (fetchResult a) (fetchResult b) []).1) ∧
    (∀ (a : Fetch RecentConv) (b : Fetch StoryCompletion),
      (get_relevant_context a b true .unreachable).similar_conversations = []) ∧
    semanticSection [] = [] ∧
    (∀ useSem : Bool,
      (get_relevant_context .unreachable .unreachable useSem .unreachable).summary =
        "이전 대화 기록 없음") := by
  refine ⟨fun useSem semF => ⟨rfl, rfl⟩, fun a b semF => ⟨rfl, rfl⟩,
    fun a b => rfl, rfl, fun useSem => ?_⟩
  cases useSem <;> rfl

/-- Claim C8 counterexample: the completion list is most-recent-first, so
the claim's "earliest completion record" is the last one — and a child
name present only there is dropped, not carried into the returned
context: with four completion records whose only `childName` sits in the
earliest (fourth) record, the extraction scans `story_completions[:3]`
and the returned `child_name` is `none`. -/
theorem claim_C8_counterexample :
    (c8Completions.getLast?.bind (fun c => c.childName)) = some "민준" ∧
    c8Completions.length = 4 ∧
    (get_relevant_context (.ok []) (.ok c8Completions) false
      .unreachable).child_name = none := by
  refine ⟨rfl, rfl, rfl⟩

/-- Claim C8 (amended): the context summary is assembled deterministically
in the fixed order — the story-completion section first (the summary
starts with its header whenever completions exist), then the recent-topic
section, then the semantic section (the three blocks concatenate in
exactly that order when all are present); each present semantic match is
annotated with its own score tag, which appears in the summary; and the
child name carried into the returned context is the first non-null
`childName` among the three most recent completion records
(`story_completions[:3]`) — a name in the most recent record is always
carried, and when none of the three most recent records carries one the
returned `child_name` is `none`, dropping any name that only an older
(earlier) record holds. -/
theorem claim_C8_assembly_and_extraction :
    (∀ (r : List RecentConv) (c : List StoryCompletion) (s : List SimilarConv),
      c ≠ [] →
      pyStartsWith (create_context_summary r c s).1 "**완료한 동화:**" = true) ∧
    (∀ (r : List RecentConv) (c : List StoryCompletion) (s : List SimilarConv),
      c ≠ [] → r ≠ [] → s ≠ [] →
      (create_context_summary r c s).1 =
        joinParts (completionSection c) ++ "\n" ++ joinParts (recentSection r) ++
          "\n" ++ joinParts (semanticSection s)) ∧
    (∀ (r : List RecentConv) (c : List StoryCompletion) (x : SimilarConv)
        (s : List SimilarConv),
      pyContains (create_context_summary r c (x :: s)).1 (simScoreTag x) = true) ∧
    (∀ (recentF : Fetch RecentConv) (compF : Fetch StoryCompletion) (useSem : Bool)
        (semF : Fetch SimilarConv),
      (get_relevant_context recentF compF useSem semF).child_name =
        firstChildName ((fetchResult compF).take 3)) ∧
    (∀ (recentF : Fetch RecentConv) (compF : Fetch StoryCompletion) (useSem : Bool)
        (semF : Fetch SimilarConv) (cc : StoryCompletion) (nm : String),
      (fetchResult compF).head? = some cc → cc.childName = some nm →
      (get_relevant_context recentF compF useSem semF).child_name = some nm) ∧
    (∀ (recentF : Fetch RecentConv) (compF : Fetch StoryCompletion) (useSem : Bool)
        (semF : Fetch SimilarConv),
      (∀ c ∈ (fetchResult compF).take 3, c.childName = none) →
      (get_relevant_context recentF compF useSem semF).child_name = none) := by
  refine ⟨?_, ?_, ?_, ?_, ?_, ?_⟩
  · intro r c s hc
    have hcs : completionSection c = "**완료한 동화:**" :: (c.take 3).map completionLine := by
      simp [completionSection, hc]
    have hparts : completionSection c ++ recentSection r ++ semanticSection s =
        "**완료한 동화:**" :: ((c.take 3).map completionLine ++ recentSection r ++
          semanticSection s) := by
      rw [hcs]; simp
    rw [create_context_summary_fst, hparts, if_neg (List.cons_ne_nil _ _)]
    exact joinParts_startsWith _ _
  · intro r c s hc hr hs
    have hcs : completionSection c ≠ [] := by simp [completionSection, hc]
    have hrs : recentSection r ≠ [] := by simp [recentSection, hr]
    have hss : semanticSection s ≠ [] := by simp [semanticSection, hs]
    have hparts : completionSection c ++ recentSection r ++ semanticSection s ≠ [] := by
      simp [hcs]
    rw [create_context_summary_fst, if_neg hparts]
    rw [joinParts_append _ (by simp [hcs]) hss,
        joinParts_append _ hcs hrs]
  · intro r c x s
    have hline : ("  " ++ toString 1 ++ ". " ++ simScoreTag x) ∈
        completionSection c ++ recentSection r ++ semanticSection (x :: s) := by
      apply List.mem_append_right
      simp [semanticSection, simLinesOf, List.enumFrom]
    have hparts : completionSection c ++ recentSection r ++ semanticSection (x :: s) ≠ [] := by
      intro hcontra
      rw [hcontra] at hline
      exact List.not_mem_nil _ hline
    have hsum : (create_context_summary r c (x :: s)).1 =
        joinParts (completionSection c ++ recentSection r ++ semanticSection (x :: s)) := by
      rw [create_context_summary_fst, if_neg hparts]
    rw [hsum]
    apply pyContains_of_occurs
    have h1 : (simScoreTag x).data <:+: ("  " ++ toString 1 ++ ". " ++ simScoreTag x).data := by
      rw [string_data_append]
      exact ⟨("  " ++ toString 1 ++ ". ").data, [], by simp⟩
    exact h1.trans (mem_joinParts_occurs hline)
  · intro recentF compF useSem semF
    exact create_context_summary_snd (fetchResult recentF) (fetchResult compF)
      (if useSem then fetchResult semF else [])
  · intro recentF compF useSem semF cc nm hhead hname
    show (create_context_summary (fetchResult recentF) (fetchResult compF)
      (if useSem then fetchResult semF else [])).2 = some nm
    rw [create_context_summary_snd]
    cases hcf : fetchResult compF with
    | nil => rw [hcf] at hhead; simp at hhead
    | cons c0 cs =>
        rw [hcf] at hhead
        simp only [List.head?] at hhead
        injection hhead with hc0
        subst hc0
        simp [firstChildName, hname]
  · intro recentF compF useSem semF hall
    show (create_context_summary (fetchResult recentF) (fetchResult compF)
      (if useSem then fetchResult semF else [])).2 = none
    rw [create_context_summary_snd]
    exact firstChildName_none _ hall

/-- Claim C8 witness: the assembly and extraction facts at concrete
inputs — including the take-3 extraction equation evaluated on the
counterexample history. -/
theorem claim_C8_witness :
    pyStartsWith (create_context_summary [⟨"오늘 뭐 했어?"⟩]
      [{ storyTitle := some "용감한 디노" }] []).1 "**완료한 동화:**" = true ∧
    pyContains (create_context_summary [] [] [⟨"공룡 이야기", "재밌었지!", "0.95"⟩]).1
      (simScoreTag ⟨"공룡 이야기", "재밌었지!", "0.95"⟩) = true ∧
    (get_relevant_context (.ok []) (.ok c8Completions) false
      .unreachable).child_name = firstChildName (c8Completions.take 3) ∧
    (get_relevant_context (.ok []) (.ok [{ childName := some "민준" }]) false
      .unreachable).child_name = some "민준" :=
  ⟨claim_C8_assembly_and_extraction.1 [⟨"오늘 뭐 했어?"⟩]
      [{ storyTitle := some "용감한 디노" }] [] (by simp),
   claim_C8_assembly_and_extraction.2.2.1 [] [] ⟨"공룡 이야기", "재밌었지!", "0.95"⟩ [],
   claim_C8_assembly_and_extraction.2.2.2.1 (.ok []) (.ok c8Completions) false
      .unreachable,
   claim_C8_assembly_and_extraction.2.2.2.2.1 (.ok [])
      (.ok [{ childName := some "민준" }]) false .unreachable
      { childName := some "민준" } "민준" rfl rfl⟩
/-- Claim C9: the search deduplication never emits two stories with the
same id or the same title and stops at `top_k` items; in the spec's
scenario — 10 raw candidates, 3 of which duplicate earlier titles, a
recommendation request with limit 5 — exactly 5 stories with pairwise
distinct titles are returned. -/
theorem claim_C9_dedup :
    ((recommend_stories c9Matches [] 5).length = 5 ∧
      ((recommend_stories c9Matches [] 5).map (fun s => s.title)).Nodup ∧
      c9Matches.length = 10) ∧
    (∀ (ms : List PineMatch) (k : Nat), 1 ≤ k →
      (search_stories_dedup ms k).length ≤ k) ∧
    (∀ (ms : List PineMatch) (k : Nat),
      ((search_stories_dedup ms k).map (fun s => s.title)).Nodup ∧
      ((search_stories_dedup ms k).map (fun s => s.storyId)).Nodup) := by
  refine ⟨⟨by decide, by decide, by decide⟩, ?_, ?_⟩
  · intro ms k hk
    have h := dedupGo_length_le ms k [] [] 0 (by omega)
    simpa using h
  · intro ms k
    obtain ⟨h1, _, h2, _⟩ := dedupGo_titles ms k [] [] 0
    exact ⟨h1, h2⟩

/-- Claim C9 witness: the length bound applied at the scenario's input. -/
theorem claim_C9_witness :
    (search_stories_dedup c9Matches 5).length ≤ 5 :=
  claim_C9_dedup.2.1 c9Matches 5 (by decide)
